/-
Verification development for the reorder-report dashboard script
(`src/dashboard.py`).  The script's data/filter pipeline is shallowly
embedded: a pandas DataFrame becomes a `Table` (an explicit column list
plus a list of `Row` records), nullable cells become `Option` values,
calendar dates become day numbers in `ℤ`, and the float column values
become `ℚ`.  Fallible steps of the script (column accesses that can raise
`KeyError`, the `int(...)` conversion that can raise `ValueError`) are
embedded with `Except`.

Library semantics the embedding relies on (pandas / Python):
* `Series.round()` and Python's `round()` round half to even
  (`roundHalfEven` below).
* `int(x)` on a float truncates toward zero (`truncQ` below) and raises
  `ValueError` on NaN.
* `df[col]` raises `KeyError` when `col` is absent.
* `Series.fillna(v)` and boolean masks never mutate the source frame.
-/
import Mathlib

/-- A single cell value of the report table: text, a numeric value, or a
calendar date (a day number). -/
inductive Cell where
  | str : String → Cell
  | num : ℚ → Cell
  | date : ℤ → Cell
deriving DecidableEq, Repr

/-- One row of the reorder report.  Each field is the stored value of the
column of the same name (`none` = missing / NaN).  `item` stands for the
`Item` column when present, otherwise for `Item #`; item values are
modelled in their textual form (the script compares them `astype(str)`).
`suggestedDate` is the derived `Suggested Reorder Date` value. -/
structure Row where
  customer : Option String
  item : Option String
  status : Option String
  daysUntilOut : Option ℚ
  suggestedQty : Option ℚ
  lastDue : Option ℤ
  suggestedDate : Option ℤ
deriving DecidableEq, Repr

/-- A report table: the ordered column list of the frame plus its rows.
A column exists in the frame iff its name is in `cols`; a `Row` field
whose column is absent from `cols` is irrelevant. -/
structure Table where
  cols : List String
  rows : List Row
deriving DecidableEq, Repr

/-- Round half to even, the rounding used by `pandas.Series.round()` and
by Python's built-in `round()` on the (exactly representable) values
involved. -/
def roundHalfEven (q : ℚ) : ℤ :=
  let f : ℤ := q.floor
  let frac : ℚ := q - (f : ℚ)
  if frac < 1/2 then f
  else if 1/2 < frac then f + 1
  else if f % 2 = 0 then f else f + 1

/-- Python's `int()` on a float: truncation toward zero. -/
def truncQ (q : ℚ) : ℤ :=
  if 0 ≤ q then q.floor else -((-q).floor)

/-- Maximum of a list (`Series.max(skipna=True)` over the non-missing
values); `none` on the empty list (pandas returns NaN there). -/
def listMax {α : Type} [LinearOrder α] : List α → Option α
  | [] => none
  | x :: xs =>
    some (match listMax xs with
      | none => x
      | some m => max x m)

/-- Minimum of a list (`Series.min()` over non-missing values). -/
def listMin {α : Type} [LinearOrder α] : List α → Option α
  | [] => none
  | x :: xs =>
    some (match listMin xs with
      | none => x
      | some m => min x m)

/-- Line 36 of the script, per row: `Days Until Out` rounded to the
nearest integer (`.round()`), with a missing value then treated as 0
(`.fillna(0)` after the rounding). -/
def daysRounded (r : Row) : ℤ :=
  match r.daysUntilOut with
  | some d => roundHalfEven d
  | none => 0

/-- Lines 36-48 of the script for one row: the suggested reorder date is
`base_date + (days_rounded - buffer_days)` where `base_date` is today,
clipped forward to today when the result lies in the past; only the
calendar date is kept (dates are day numbers here, so day granularity is
inherent). -/
def deriveRow (today buffer : ℤ) (r : Row) : Row :=
  { r with
    suggestedDate :=
      some (if today + (daysRounded r - buffer) < today then today
            else today + (daysRounded r - buffer)) }

/-- `add_suggested_date` (script lines 30-50): if the table lacks a
`Days Until Out` column the table is returned unchanged; otherwise every
row receives a derived `Suggested Reorder Date` value and the column is
appended to the column list (pandas appends a newly assigned column at
the end; assigning an existing column keeps its position). -/
def addSuggestedDate (today buffer : ℤ) (t : Table) : Table :=
  if "Days Until Out" ∈ t.cols then
    { cols :=
        if "Suggested Reorder Date" ∈ t.cols then t.cols
        else t.cols ++ ["Suggested Reorder Date"],
      rows := t.rows.map (deriveRow today buffer) }
  else t

/-- The sidebar filter state: the value of every filter widget of the
script (lines 63-103).  `dateRange` is `some (start, stop)` when the
`Last Due` date widget returned a two-element range and `none` otherwise
(the script's `isinstance` guard then leaves `mask_date = True`). -/
structure Criteria where
  selectAllCust : Bool
  custSelection : List String
  selectAllItems : Bool
  itemSelection : List String
  statusChoice : String
  daysSlider : ℤ
  dateRange : Option (ℤ × ℤ)
  query : String
deriving DecidableEq, Repr

/-- An error raised by the script: a `KeyError` from a missing column, or
the `ValueError` from `int(nan)` on line 84. -/
inductive RunError where
  | keyError : String → RunError
  | valueError : RunError
deriving DecidableEq, Repr

/-- `df["Customer"].fillna("(Blank)")` for one row. -/
def normCust (r : Row) : String := r.customer.getD "(Blank)"

/-- `df[item_col].fillna("(Blank)").astype(str)` for one row (item values
are modelled in textual form, so `astype(str)` is the identity). -/
def normItem (r : Row) : String := r.item.getD "(Blank)"

/-- `df["Status"].fillna("(Blank)")` for one row. -/
def normStatus (r : Row) : String := r.status.getD "(Blank)"

/-- Line 65: the distinct blank-normalized customer labels (`sorted` and
`unique`; only membership in this list matters downstream). -/
def custValues (t : Table) : List String :=
  (t.rows.map normCust).dedup

/-- Line 70: `item_col = "Item" if "Item" in df.columns else "Item #"`. -/
def itemColName (t : Table) : String :=
  if "Item" ∈ t.cols then "Item" else "Item #"

/-- Lines 66-68: the customer mask for one row.  With "Select All
Customers" checked the selected set is every observed label, otherwise
it is the explicit multiselect value. -/
def maskCustomer (t : Table) (c : Criteria) (r : Row) : Bool :=
  decide (normCust r ∈
    (if c.selectAllCust then custValues t else c.custSelection))

/-- Lines 71-72: the distinct stringified item labels of the rows passing
the customer mask (the options offered by the item multiselect). -/
def itemValues (t : Table) (c : Criteria) : List String :=
  ((t.rows.filter (maskCustomer t c)).map normItem).dedup

/-- Lines 73-75: the item mask for one row. -/
def maskItem (t : Table) (c : Criteria) (r : Row) : Bool :=
  decide (normItem r ∈
    (if c.selectAllItems then itemValues t c else c.itemSelection))

/-- Line 82: `True` when the status radio is "All", otherwise equality of
the blank-normalized status with the chosen label. -/
def maskStatus (c : Criteria) (r : Row) : Bool :=
  (c.statusChoice == "All") || (normStatus r == c.statusChoice)

/-- Line 86: `Days Until Out <= slider` or the value is missing. -/
def maskDays (c : Criteria) (r : Row) : Bool :=
  match r.daysUntilOut with
  | some d => decide (d ≤ (c.daysSlider : ℚ))
  | none => true

/-- Lines 88-97: inclusive `Last Due` range membership or a missing
value; the mask is `True` when the column is absent or the widget did not
return a two-element range. -/
def maskDate (t : Table) (c : Criteria) (r : Row) : Bool :=
  if "Last Due" ∈ t.cols then
    match c.dateRange with
    | some (s, e) =>
      (match r.lastDue with
       | some d => decide (s ≤ d ∧ d ≤ e)
       | none => true)
    | none => true
  else true

/-- The conjunction of the five Series-valued masks of lines 110-117, in
the script's order (`mask_customer & mask_status & mask_item & mask_days
& mask_date`); with an empty search string `mask_search` is the scalar
`True` and drops out of the conjunction. -/
def rowMask (t : Table) (c : Criteria) (r : Row) : Bool :=
  maskCustomer t c r && maskStatus c r && maskItem t c r &&
    maskDays c r && maskDate t c r

/-- The non-missing `Days Until Out` values of a table. -/
def daysVals (t : Table) : List ℚ :=
  t.rows.filterMap (fun r => r.daysUntilOut)

/-- The non-missing `Last Due` values of a table. -/
def lastDueVals (t : Table) : List ℤ :=
  t.rows.filterMap (fun r => r.lastDue)

/-- `df.where(cond)` on a row with an everywhere-False condition: every
cell of a column that exists in the frame is replaced by NaN; fields
whose column is absent from the frame do not exist in pandas and are kept
as they are in the model. -/
def nullifyRow (cols : List String) (r : Row) : Row :=
  { customer := if "Customer" ∈ cols then none else r.customer,
    item := if "Item" ∈ cols ∨ "Item #" ∈ cols then none else r.item,
    status := if "Status" ∈ cols then none else r.status,
    daysUntilOut := if "Days Until Out" ∈ cols then none else r.daysUntilOut,
    suggestedQty := if "Suggested Order Qty" ∈ cols then none else r.suggestedQty,
    lastDue := if "Last Due" ∈ cols then none else r.lastDue,
    suggestedDate := if "Suggested Reorder Date" ∈ cols then none else r.suggestedDate }

/-- The script's filter section (lines 63-117) on the working table.

Failure cases, in the order the script reaches them: line 65 and lines
71/75 raise `KeyError` when the `Customer` respectively the chosen item
column is absent; line 82 raises `KeyError` when the radio is not "All"
and `Status` is absent; line 84 raises `KeyError` when `Days Until Out`
is absent and `ValueError` (`int(nan)`) when that column holds no
non-missing value.

With an empty search string `mask_search` is the scalar `True` and the
selection `df[...]` keeps exactly the rows passing `rowMask`.  With a
non-empty search string, `mask_search` (line 101, built with
`apply(..., axis=1)`) is a whole boolean DataFrame, not a row mask;
`Series & DataFrame` aligns the series row labels against the frame's
column labels (disjoint label sets) filling the gaps with False, so the
combined mask is everywhere False, and `df[boolean_frame]` is
`df.where(mask)`: the result keeps every row position but replaces every
cell by NaN.  The contents of the query string never influence this
outcome. -/
def filterPipeline (t : Table) (c : Criteria) : Except RunError Table :=
  if "Customer" ∉ t.cols then .error (.keyError "Customer")
  else if itemColName t ∉ t.cols then .error (.keyError (itemColName t))
  else if c.statusChoice ≠ "All" ∧ "Status" ∉ t.cols then
    .error (.keyError "Status")
  else if "Days Until Out" ∉ t.cols then
    .error (.keyError "Days Until Out")
  else if listMax (daysVals t) = none then .error .valueError
  else if c.query = "" then
    .ok { cols := t.cols, rows := t.rows.filter (rowMask t c) }
  else
    .ok { cols := t.cols, rows := t.rows.map (nullifyRow t.cols) }

/-- The default filter state of the sidebar before any interaction
(lines 66, 73, 77-81, 85, 90, 99): both select-all boxes checked, empty
multiselects, status "All", the days slider at its default
`int(df["Days Until Out"].max())`, the date widget at the full observed
`Last Due` range, and an empty search string.  `none` when line 84
raises (column absent or no non-missing value). -/
def defaultDateRange (t : Table) : Option (ℤ × ℤ) :=
  if "Last Due" ∈ t.cols then
    match listMin (lastDueVals t), listMax (lastDueVals t) with
    | some mn, some mx => some (mn, mx)
    | _, _ => none
  else none

/-- The default `Criteria` for a working table (see `defaultDateRange`
for the date part). -/
def defaultCriteria (t : Table) : Option Criteria :=
  if "Days Until Out" ∈ t.cols then
    (listMax (daysVals t)).map (fun m =>
      { selectAllCust := true,
        custSelection := [],
        selectAllItems := true,
        itemSelection := [],
        statusChoice := "All",
        daysSlider := truncQ m,
        dateRange := defaultDateRange t,
        query := "" })
  else none

/-- KPI of line 124: `Total Items` is the row count of the filtered view
(0 on the empty view via the `else` branch of lines 128-130). -/
def totalItems (rows : List Row) : ℤ :=
  if rows.isEmpty then 0 else (rows.length : ℤ)

/-- KPI of line 125: `Need Reorder` counts the rows whose `Status` equals
"Reorder Soon" exactly (a missing status compares unequal). -/
def needReorder (rows : List Row) : ℤ :=
  if rows.isEmpty then 0
  else ((rows.countP (fun r => r.status == some "Reorder Soon") : ℕ) : ℤ)

/-- The non-missing `Days Until Out` values of a row list
(`filtered["Days Until Out"].dropna()`). -/
def daysValsR (rows : List Row) : List ℚ :=
  rows.filterMap (fun r => r.daysUntilOut)

/-- The non-missing `Suggested Order Qty` values of a row list. -/
def qtyValsR (rows : List Row) : List ℚ :=
  rows.filterMap (fun r => r.suggestedQty)

/-- KPI of line 126: `Avg Days Until Out` is the mean of the non-missing
values rounded (Python `round`, half to even), 0 when no non-missing
value exists or the view is empty. -/
def avgDays (rows : List Row) : ℤ :=
  if rows.isEmpty then 0
  else
    if (daysValsR rows).isEmpty then 0
    else roundHalfEven ((daysValsR rows).sum / ((daysValsR rows).length : ℚ))

/-- KPI of line 127: `Total Suggested Qty` is the sum of the non-missing
`Suggested Order Qty` values, rounded; 0 on the empty view. -/
def totalQty (rows : List Row) : ℤ :=
  if rows.isEmpty then 0 else roundHalfEven ((qtyValsR rows).sum)

/-- The stored cell of a row under a given column name (the column-name /
record-field correspondence of the model). -/
def Row.cell (r : Row) (c : String) : Option Cell :=
  if c = "Customer" then r.customer.map Cell.str
  else if c = "Item" ∨ c = "Item #" then r.item.map Cell.str
  else if c = "Status" then r.status.map Cell.str
  else if c = "Days Until Out" then r.daysUntilOut.map Cell.num
  else if c = "Suggested Order Qty" then r.suggestedQty.map Cell.num
  else if c = "Last Due" then r.lastDue.map Cell.date
  else if c = "Suggested Reorder Date" then r.suggestedDate.map Cell.date
  else none

/-- Rendering of a numeric cell as text.  The exact float formatting of
pandas (for example "30.0") is not modelled; no claim below depends on
the text of a numeric cell. -/
def numStr (q : ℚ) : String :=
  if q.den = 1 then toString q.num
  else toString q.num ++ "/" ++ toString q.den

/-- Rendering of a date cell as text (day number; the calendar formatting
of pandas is not modelled and no claim depends on it). -/
def dateStr (d : ℤ) : String := "day " ++ toString d

/-- A cell as written by `to_csv` (line 193): a missing value becomes the
empty field. -/
def csvCell : Option Cell → String
  | none => ""
  | some (Cell.str s) => s
  | some (Cell.num q) => numStr q
  | some (Cell.date d) => dateStr d

/-- One CSV record: the row's cells in the frame's column order. -/
def csvRow (cols : List String) (r : Row) : List String :=
  cols.map (fun cName => csvCell (r.cell cName))

/-- `filtered.to_csv(index=False)` (line 193) as a list of records: the
header is the frame's own column order (no reordering is applied),
followed by one record per filtered row. -/
def csvTable (t : Table) : List (List String) :=
  t.cols :: t.rows.map (csvRow t.cols)

/-- Lines 147-149: the column order of the displayed table.  When both
columns are present, `Suggested Reorder Date` is popped from its position
and re-inserted immediately after `Days Until Out`; Python evaluates the
insertion index on the list before the pop. -/
def displayReorder (cols : List String) : List String :=
  if "Days Until Out" ∈ cols ∧ "Suggested Reorder Date" ∈ cols then
    (cols.eraseIdx (cols.indexOf "Suggested Reorder Date")).insertIdx
      (cols.indexOf "Days Until Out" + 1) "Suggested Reorder Date"
  else cols

/-- Everything the script produces for one interaction: the filtered
view, the four KPI scalars, the displayed column order (lines 146-150;
`none` when the view is empty and the detail table is replaced by a
notice), the CSV export, and the raw uploaded table shown at the bottom
(lines 204-208), if any. -/
structure ScriptOut where
  filtered : Table
  kTotal : ℤ
  kReorder : ℤ
  kAvgDays : ℤ
  kQty : ℤ
  displayCols : Option (List String)
  csv : List (List String)
  uploadPreview : Option Table
deriving DecidableEq, Repr

/-- One top-to-bottom run of the script: load the working table, derive
the suggested date (line 52), run the filter section, compute the KPIs
(lines 122-135; line 125 and line 127 access `Status` respectively
`Suggested Order Qty` and raise `KeyError` when the view is non-empty and
the column is absent), the display column order, the CSV export and the
raw upload preview.  The chart section (lines 157-186) is presentation
and is not modelled. -/
def runScript (today buffer : ℤ) (t0 : Table) (upload : Option Table)
    (c : Criteria) : Except RunError ScriptOut :=
  match filterPipeline (addSuggestedDate today buffer t0) c with
  | .error e => .error e
  | .ok f =>
    if ¬f.rows.isEmpty ∧ "Status" ∉ f.cols then .error (.keyError "Status")
    else if ¬f.rows.isEmpty ∧ "Suggested Order Qty" ∉ f.cols then
      .error (.keyError "Suggested Order Qty")
    else
      .ok { filtered := f,
            kTotal := totalItems f.rows,
            kReorder := needReorder f.rows,
            kAvgDays := avgDays f.rows,
            kQty := totalQty f.rows,
            displayCols :=
              if f.rows.isEmpty then none else some (displayReorder f.cols),
            csv := csvTable f,
            uploadPreview := upload }

/-- Case-insensitive literal substring test (ASCII case folding),
written over character lists. -/
def substringChars (p : List Char) : List Char → Bool
  | [] => p.isEmpty
  | c :: cs => p.isPrefixOf (c :: cs) || substringChars p cs

/-- Case-insensitive literal substring test on strings. -/
def substringCI (needle hay : String) : Bool :=
  substringChars needle.toLower.data hay.toLower.data

/-- A cell as rendered by `df.astype(str)` (a missing value becomes the
string "nan"). -/
def cellTextA : Option Cell → String
  | none => "nan"
  | some (Cell.str s) => s
  | some (Cell.num q) => numStr q
  | some (Cell.date d) => dateStr d

/-- Modelled from the spec: the free-text search rule of the Filter
Engine table in section 4.2 — a row matches when the search string
appears case-insensitively as a literal substring of the textual
representation of at least one column value; the empty string matches
every row.  (The script's own search mask is not a row predicate at all;
see `filterPipeline`.) -/
def specSearchHit (cols : List String) (q : String) (r : Row) : Bool :=
  q = "" || cols.any (fun cName => substringCI q (cellTextA (r.cell cName)))

/-- Applying a list of row masks one after another, each filtering the
result of the previous one (one "application order" of the criteria). -/
def seqFilter (ms : List (Row → Bool)) (rows : List Row) : List Row :=
  ms.foldl (fun acc p => acc.filter p) rows

/-- The per-criterion masks of lines 110-117 as computed by the script on
a given table, in the script's order; the final entry is the neutral
`True` sentinel that `mask_search` is when the search string is empty. -/
def codeMasks (t : Table) (c : Criteria) : List (Row → Bool) :=
  [maskCustomer t c, maskStatus c, maskItem t c, maskDays c, maskDate t c,
   fun _ => true]

/-- Row A of the worked example in spec section 8. -/
def rowA : Row :=
  { customer := some "A", item := some "X", status := some "Reorder Soon",
    daysUntilOut := some 2, suggestedQty := some 10, lastDue := none,
    suggestedDate := none }

/-- Row B of the worked example in spec section 8. -/
def rowB : Row :=
  { customer := some "B", item := some "Y", status := some "OK",
    daysUntilOut := some 30, suggestedQty := some 5, lastDue := none,
    suggestedDate := none }

/-- The worked example table of spec section 8 (with item labels so that
the item column the script accesses exists). -/
def tableAB : Table :=
  { cols := ["Customer", "Item", "Status", "Days Until Out",
             "Suggested Order Qty"],
    rows := [rowA, rowB] }

/-- A one-row table whose maximum `Days Until Out` is fractional. -/
def tableHalf : Table :=
  { cols := ["Customer", "Item", "Status", "Days Until Out"],
    rows := [{ customer := some "A", item := some "X", status := some "OK",
               daysUntilOut := some (1/2), suggestedQty := some 1,
               lastDue := none, suggestedDate := none }] }

/-- A one-row table whose maximum `Days Until Out` is an integer. -/
def tableInt : Table :=
  { cols := ["Customer", "Item", "Status", "Days Until Out"],
    rows := [{ customer := some "A", item := some "X", status := some "OK",
               daysUntilOut := some 3, suggestedQty := none,
               lastDue := none, suggestedDate := none }] }

/-- A table lacking the optional `Days Until Out` column. -/
def tableNoDays : Table :=
  { cols := ["Customer", "Item", "Status"],
    rows := [{ customer := some "A", item := some "X", status := some "OK",
               daysUntilOut := none, suggestedQty := none, lastDue := none,
               suggestedDate := none }] }

/-- A row with every field missing (what `df.where` leaves of a row of
`tableAB` once the combined mask collapsed to all-False). -/
def rowNull : Row :=
  { customer := none, item := none, status := none, daysUntilOut := none,
    suggestedQty := none, lastDue := none, suggestedDate := none }

/-- A sidebar state with both select-all boxes checked, status "All", no
date range, and the given days slider value and search string. -/
def critAll (slider : ℤ) (q : String) : Criteria :=
  { selectAllCust := true, custSelection := [], selectAllItems := true,
    itemSelection := [], statusChoice := "All", daysSlider := slider,
    dateRange := none, query := q }

/-- `rowA` after derivation at `today = 0`, `buffer = 5` (2 - 5 is in the
past, so the date is clipped to day 0). -/
def rowAd : Row := { rowA with suggestedDate := some 0 }

/-- `rowB` after derivation at `today = 0`, `buffer = 5` (day 25). -/
def rowBd : Row := { rowB with suggestedDate := some 25 }

/-- The column list of `tableAB` after derivation appends the suggested
date column. -/
def colsABd : List String :=
  ["Customer", "Item", "Status", "Days Until Out", "Suggested Order Qty",
   "Suggested Reorder Date"]

/-- The full script output on `tableAB` under `critAll 30 ""` at
`today = 0`, `buffer = 5`; used to instantiate the run-level theorems at
a concrete run. -/
def outAB : ScriptOut :=
  { filtered := { cols := colsABd, rows := [rowAd, rowBd] },
    kTotal := 2, kReorder := 1, kAvgDays := 16, kQty := 15,
    displayCols := some ["Customer", "Item", "Status", "Days Until Out",
      "Suggested Reorder Date", "Suggested Order Qty"],
    csv := [["Customer", "Item", "Status", "Days Until Out",
             "Suggested Order Qty", "Suggested Reorder Date"],
            ["A", "X", "Reorder Soon", "2", "10", "day 0"],
            ["B", "Y", "OK", "30", "5", "day 25"]],
    uploadPreview := none }

theorem listMax_eq_none {α : Type} [LinearOrder α] {l : List α} :
    listMax l = none ↔ l = [] := by
  cases l <;> simp [listMax]

theorem le_listMax {α : Type} [LinearOrder α] :
    ∀ {l : List α} {x m : α}, x ∈ l → listMax l = some m → x ≤ m := by
  intro l
  induction l with
  | nil => intro x m hx; cases hx
  | cons y ys ih =>
    intro x m hx hm
    rw [listMax] at hm
    cases hmy : listMax ys with
    | none =>
      rw [hmy] at hm
      simp only [Option.some.injEq] at hm
      have hys : ys = [] := listMax_eq_none.mp hmy
      subst hys
      rcases List.mem_singleton.mp hx with rfl
      exact le_of_eq hm
    | some m2 =>
      rw [hmy] at hm
      simp only [Option.some.injEq] at hm
      rcases List.mem_cons.mp hx with rfl | hx2
      · exact hm ▸ le_max_left x m2
      · exact le_trans (ih hx2 hmy) (hm ▸ le_max_right y m2)

theorem listMin_eq_none {α : Type} [LinearOrder α] {l : List α} :
    listMin l = none ↔ l = [] := by
  cases l <;> simp [listMin]

theorem listMin_le {α : Type} [LinearOrder α] :
    ∀ {l : List α} {x m : α}, x ∈ l → listMin l = some m → m ≤ x := by
  intro l
  induction l with
  | nil => intro x m hx; cases hx
  | cons y ys ih =>
    intro x m hx hm
    rw [listMin] at hm
    cases hmy : listMin ys with
    | none =>
      rw [hmy] at hm
      simp only [Option.some.injEq] at hm
      have hys : ys = [] := listMin_eq_none.mp hmy
      subst hys
      rcases List.mem_singleton.mp hx with rfl
      exact le_of_eq hm.symm
    | some m2 =>
      rw [hmy] at hm
      simp only [Option.some.injEq] at hm
      rcases List.mem_cons.mp hx with rfl | hx2
      · exact hm ▸ min_le_left x m2
      · exact le_trans (hm ▸ min_le_right y m2) (ih hx2 hmy)

theorem all_of_perm {α : Type} {l l2 : List α} (f : α → Bool)
    (h : l.Perm l2) : l.all f = l2.all f := by
  induction h with
  | nil => rfl
  | cons a _ ih => simp [List.all_cons, ih]
  | swap a b l => simp [List.all_cons, Bool.and_left_comm]
  | trans _ _ ih1 ih2 => rw [ih1, ih2]

theorem seqFilter_eq_filter_all :
    ∀ (ms : List (Row → Bool)) (rows : List Row),
    seqFilter ms rows = rows.filter (fun r => ms.all (fun p => p r)) := by
  intro ms
  induction ms with
  | nil => intro rows; simp [seqFilter]
  | cons p ps ih =>
    intro rows
    have h1 : seqFilter (p :: ps) rows = seqFilter ps (rows.filter p) := rfl
    rw [h1, ih, List.filter_filter]
    exact List.filter_congr (fun r _ => by
      simp only [List.all_cons]
      exact Bool.and_comm _ _)

theorem roundHalfEven_dist (q : ℚ) : |(roundHalfEven q : ℚ) - q| ≤ 1/2 := by
  have h0 : ((q.floor : ℤ) : ℚ) ≤ q := Int.floor_le q
  have h1 : q < q.floor + 1 := Int.lt_floor_add_one q
  rw [roundHalfEven]
  split_ifs with ha hb hc
  all_goals rw [abs_le]; push_cast; constructor <;> linarith

theorem ratFloor_eq_floor (q : ℚ) : q.floor = ⌊q⌋ := by
  rw [Rat.floor_def', Rat.floor_def]

theorem truncQ_den_one (q : ℚ) (h : q.den = 1) : ((truncQ q : ℤ) : ℚ) = q := by
  have hq : (q.num : ℚ) = q := (Rat.den_eq_one_iff q).mp h
  rw [truncQ]
  split_ifs with h0
  · rw [ratFloor_eq_floor, ← hq, Int.floor_intCast]
  · have hneg : -q = ((-q.num : ℤ) : ℚ) := by push_cast; rw [hq]
    rw [ratFloor_eq_floor, hneg, Int.floor_intCast]
    push_cast
    rw [hq]
    ring

theorem indexOf_append_cons (a : String) :
    ∀ (l1 l2 : List String), a ∉ l1 →
    (l1 ++ a :: l2).indexOf a = l1.length := by
  intro l1
  induction l1 with
  | nil => intro l2 _; simp [List.indexOf_cons_self]
  | cons x l1 ih =>
    intro l2 hx
    have hxa : x ≠ a := fun h => hx (h ▸ List.mem_cons_self x l1)
    rw [List.cons_append, List.indexOf_cons_ne _ hxa,
      ih l2 (fun h => hx (List.mem_cons_of_mem x h))]
    rfl

theorem eraseIdx_append_cons {α : Type} (a : α) :
    ∀ (l1 l2 : List α), (l1 ++ a :: l2).eraseIdx l1.length = l1 ++ l2 := by
  intro l1
  induction l1 with
  | nil => intro l2; rfl
  | cons x l1 ih => intro l2; simp [List.eraseIdx, ih l2]

theorem insertIdx_append_cons {α : Type} (a b : α) :
    ∀ (l1 l2 : List α),
    (l1 ++ a :: l2).insertIdx (l1.length + 1) b = l1 ++ a :: b :: l2 := by
  intro l1
  induction l1 with
  | nil => intro l2; rfl
  | cons x l1 ih =>
    intro l2
    simp only [List.length_cons, List.cons_append, List.insertIdx_succ_cons, ih l2]

theorem displayReorder_eq (l1 l2 : List String)
    (h1 : "Days Until Out" ∉ l1) (h2 : "Suggested Reorder Date" ∉ l1)
    (h3 : "Suggested Reorder Date" ∉ l2) :
    displayReorder (l1 ++ "Days Until Out" :: (l2 ++ ["Suggested Reorder Date"])) =
      l1 ++ "Days Until Out" :: "Suggested Reorder Date" :: l2 := by
  have hmem : "Days Until Out" ∈ l1 ++ "Days Until Out" :: (l2 ++ ["Suggested Reorder Date"]) ∧
      "Suggested Reorder Date" ∈ l1 ++ "Days Until Out" :: (l2 ++ ["Suggested Reorder Date"]) := by
    constructor <;> simp
  have hne : "Suggested Reorder Date" ∉ l1 ++ "Days Until Out" :: l2 := by
    intro h
    rcases List.mem_append.mp h with h | h
    · exact h2 h
    · rcases List.mem_cons.mp h with h | h
      · exact absurd h (by decide)
      · exact h3 h
  have hassoc : l1 ++ "Days Until Out" :: (l2 ++ ["Suggested Reorder Date"]) =
      (l1 ++ "Days Until Out" :: l2) ++ "Suggested Reorder Date" :: [] := by
    simp
  have hidD : (l1 ++ "Days Until Out" :: (l2 ++ ["Suggested Reorder Date"])).indexOf
      "Days Until Out" = l1.length := indexOf_append_cons _ l1 _ h1
  have hidS : (l1 ++ "Days Until Out" :: (l2 ++ ["Suggested Reorder Date"])).indexOf
      "Suggested Reorder Date" = (l1 ++ "Days Until Out" :: l2).length := by
    rw [hassoc]
    exact indexOf_append_cons _ _ _ hne
  rw [displayReorder, if_pos hmem, hidD, hidS, hassoc,
    eraseIdx_append_cons _ (l1 ++ "Days Until Out" :: l2) []]
  rw [List.append_nil]
  exact insertIdx_append_cons _ _ l1 l2

theorem addSuggestedDate_cols (today buffer : ℤ) (t : Table)
    (h1 : "Days Until Out" ∈ t.cols) (h2 : "Suggested Reorder Date" ∉ t.cols) :
    (addSuggestedDate today buffer t).cols =
      t.cols ++ ["Suggested Reorder Date"] := by
  simp [addSuggestedDate, h1, h2]

theorem filterPipeline_ok_inv (t : Table) (c : Criteria) (f : Table)
    (h : filterPipeline t c = .ok f) :
    f.cols = t.cols ∧
    (c.query = "" → f.rows = t.rows.filter (rowMask t c)) ∧
    (c.query ≠ "" → f.rows = t.rows.map (nullifyRow t.cols)) := by
  unfold filterPipeline at h
  split_ifs at h with h1 h2 h3 h4 h5 hq
  · injection h with h
    subst h
    exact ⟨rfl, fun _ => rfl, fun hq2 => absurd hq hq2⟩
  · injection h with h
    subst h
    exact ⟨rfl, fun hq2 => absurd hq2 hq, fun _ => rfl⟩

theorem runScript_ok_inv (today buffer : ℤ) (t0 : Table) (upload : Option Table)
    (c : Criteria) (out : ScriptOut)
    (h : runScript today buffer t0 upload c = .ok out) :
    ∃ f, filterPipeline (addSuggestedDate today buffer t0) c = .ok f ∧
      out.filtered = f ∧ out.csv = csvTable f ∧
      out.displayCols =
        (if f.rows.isEmpty then none else some (displayReorder f.cols)) ∧
      out.uploadPreview = upload := by
  unfold runScript at h
  cases hf : filterPipeline (addSuggestedDate today buffer t0) c with
  | error e => rw [hf] at h; exact Except.noConfusion h
  | ok f =>
    rw [hf] at h
    dsimp only at h
    by_cases hst : ¬f.rows.isEmpty = true ∧ "Status" ∉ f.cols
    · rw [if_pos hst] at h; exact Except.noConfusion h
    · rw [if_neg hst] at h
      by_cases hqt : ¬f.rows.isEmpty = true ∧ "Suggested Order Qty" ∉ f.cols
      · rw [if_pos hqt] at h; exact Except.noConfusion h
      · rw [if_neg hqt] at h
        injection h with h
        subst h
        exact ⟨f, rfl, rfl, rfl, rfl, rfl⟩

/-- C1: for every input table and every buffer value, every value of the
derived `Suggested Reorder Date` column produced by `add_suggested_date`
is non-null (`some v`) and never earlier than the computation date
`today` (dates in the past are clipped forward; a missing `Days Until
Out` counts as 0 inside `daysRounded`). -/
theorem C1_suggested_date_nonnull_not_past (today buffer : ℤ) (t : Table)
    (r : Row) (hcol : "Days Until Out" ∈ t.cols)
    (hr : r ∈ (addSuggestedDate today buffer t).rows) :
    ∃ v, r.suggestedDate = some v ∧ today ≤ v := by
  simp only [addSuggestedDate, if_pos hcol] at hr
  obtain ⟨r0, _, rfl⟩ := List.mem_map.mp hr
  refine ⟨if today + (daysRounded r0 - buffer) < today then today
    else today + (daysRounded r0 - buffer), rfl, ?_⟩
  split_ifs with h
  · exact le_refl today
  · exact le_of_not_lt h

theorem C1_witness :
    ∃ v,
      (⟨some "A", some "X", some "Reorder Soon", some 2, some 10, none,
        some 100⟩ : Row).suggestedDate = some v ∧ (100 : ℤ) ≤ v :=
  C1_suggested_date_nonnull_not_past 100 7 tableAB _
    (by with_unfolding_all decide)
    (by
      have h : (addSuggestedDate 100 7 tableAB).rows =
          [⟨some "A", some "X", some "Reorder Soon", some 2, some 10, none,
            some 100⟩,
           ⟨some "B", some "Y", some "OK", some 30, some 5, none,
            some 123⟩] := by with_unfolding_all rfl
      rw [h]
      exact List.mem_cons_self _ _)

/-- C2: for every row with `daysRounded` value `D` and buffer `B` such
that `today + D - B` is not before `today` (equivalently `B ≤ D`),
`add_suggested_date` maps every row through `deriveRow`, and `deriveRow`
sets the suggested date to exactly `today + (D - B)` at day granularity
(dates are day numbers in the model); a missing `Days Until Out` is 0
after rounding by definition of `daysRounded`. -/
theorem C2_suggested_date_exact (today buffer : ℤ) (t : Table)
    (hcol : "Days Until Out" ∈ t.cols) :
    (addSuggestedDate today buffer t).rows =
      t.rows.map (deriveRow today buffer) ∧
    ∀ r : Row, buffer ≤ daysRounded r →
      (deriveRow today buffer r).suggestedDate =
        some (today + (daysRounded r - buffer)) := by
  constructor
  · simp [addSuggestedDate, hcol]
  · intro r hb
    have hnlt : ¬ today + (daysRounded r - buffer) < today := by omega
    simp [deriveRow, hnlt]

theorem C2_witness :
    (addSuggestedDate 0 5 tableAB).rows = tableAB.rows.map (deriveRow 0 5) ∧
    (deriveRow 0 5 rowB).suggestedDate = some (0 + (daysRounded rowB - 5)) :=
  ⟨(C2_suggested_date_exact 0 5 tableAB (by with_unfolding_all decide)).1,
   (C2_suggested_date_exact 0 5 tableAB (by with_unfolding_all decide)).2 rowB
     (by with_unfolding_all decide)⟩

/-- C7: on every filtered subsequence the four KPI scalars (lines
122-135) equal: the row count; the count of rows whose status is exactly
"Reorder Soon"; the half-even-rounded mean of the non-missing
`Days Until Out` values and 0 when none exist; the half-even-rounded sum
of the non-missing `Suggested Order Qty` values; and all four are 0 on
the empty subsequence. -/
theorem C7_kpi_scalars (rows : List Row) :
    totalItems rows = (rows.length : ℤ) ∧
    needReorder rows =
      ((rows.countP (fun r => r.status == some "Reorder Soon") : ℕ) : ℤ) ∧
    avgDays rows =
      (if (daysValsR rows).isEmpty then 0
       else roundHalfEven
         ((daysValsR rows).sum / ((daysValsR rows).length : ℚ))) ∧
    totalQty rows = roundHalfEven ((qtyValsR rows).sum) ∧
    totalItems [] = 0 ∧ needReorder [] = 0 ∧ avgDays [] = 0 ∧
      totalQty [] = 0 := by
  refine ⟨?_, ?_, ?_, ?_, rfl, rfl, rfl, rfl⟩
  · cases rows <;> simp [totalItems]
  · cases rows <;> simp [needReorder]
  · cases rows <;> simp [avgDays, daysValsR]
  · cases rows with
    | nil => with_unfolding_all rfl
    | cons r rs => simp [totalQty]

/-- C10: uploading a file never replaces the working table: a run with an
upload equals the run without one in every output (filtered view, KPI
scalars, display order, CSV export), except that the raw uploaded table
itself is carried to the preview slot unchanged (no derivation, no
filtering applied to it). -/
theorem C10_upload_independent (today buffer : ℤ) (t0 : Table)
    (upload : Option Table) (c : Criteria) :
    runScript today buffer t0 upload c =
      (runScript today buffer t0 none c).map
        (fun o => { o with uploadPreview := upload }) := by
  unfold runScript
  cases filterPipeline (addSuggestedDate today buffer t0) c with
  | error e => rfl
  | ok f =>
    dsimp only
    split_ifs <;> rfl

/-- C4 (amended): `add_suggested_date` is a no-op on a table lacking
`Days Until Out`, and the `Last Due` filter degrades to include-all when
that column is absent; but the days-filter setup (line 84) accesses the
`Days Until Out` column unconditionally, so on a table lacking it the
filter section raises `KeyError` instead of degrading. -/
theorem C4_missing_optional_columns (today buffer : ℤ) (t : Table)
    (c : Criteria) (r : Row) :
    ("Days Until Out" ∉ t.cols → addSuggestedDate today buffer t = t) ∧
    ("Last Due" ∉ t.cols → maskDate t c r = true) ∧
    ("Days Until Out" ∉ t.cols → "Customer" ∈ t.cols →
      itemColName t ∈ t.cols →
      (c.statusChoice = "All" ∨ "Status" ∈ t.cols) →
      filterPipeline t c = .error (.keyError "Days Until Out")) := by
  refine ⟨?_, ?_, ?_⟩
  · intro h; simp [addSuggestedDate, h]
  · intro h; simp [maskDate, h]
  · intro hd hC hI hS
    have h3 : ¬(c.statusChoice ≠ "All" ∧ "Status" ∉ t.cols) := by
      rcases hS with h | h
      · exact fun hcon => hcon.1 h
      · exact fun hcon => hcon.2 h
    rw [filterPipeline, if_neg (not_not_intro hC), if_neg (not_not_intro hI),
      if_neg h3, if_pos hd]

/-- C4 counterexample: on a concrete table without the optional
`Days Until Out` column, the filter section raises a `KeyError` rather
than degrading to include-all. -/
theorem C4_counterexample :
    filterPipeline tableNoDays (critAll 0 "") =
      .error (.keyError "Days Until Out") ∧
    "Days Until Out" ∉ tableNoDays.cols := by
  exact ⟨by with_unfolding_all rfl, by with_unfolding_all decide⟩

theorem C4_witness :
    (addSuggestedDate 0 5 tableNoDays = tableNoDays) ∧
    (maskDate tableNoDays (critAll 0 "") rowNull = true) ∧
    (filterPipeline tableNoDays (critAll 0 "") =
      .error (.keyError "Days Until Out")) :=
  ⟨(C4_missing_optional_columns 0 5 tableNoDays (critAll 0 "") rowNull).1
     (by with_unfolding_all decide),
   (C4_missing_optional_columns 0 5 tableNoDays (critAll 0 "") rowNull).2.1
     (by with_unfolding_all decide),
   (C4_missing_optional_columns 0 5 tableNoDays (critAll 0 "") rowNull).2.2
     (by with_unfolding_all decide) (by with_unfolding_all decide)
     (by with_unfolding_all decide) (Or.inl rfl)⟩

/-- C9 (amended): for every filter state with an empty search string, the
filtered view keeps the table's columns and its rows are a sublist of the
working table's rows, each row carried with exactly its stored field
values (blank-normalization happens only inside the membership tests of
the masks, which never write to the rows). -/
theorem C9_filter_view_preserves_rows (t : Table) (c : Criteria) (f : Table)
    (hq : c.query = "") (h : filterPipeline t c = .ok f) :
    f.cols = t.cols ∧ f.rows.Sublist t.rows ∧ ∀ r ∈ f.rows, r ∈ t.rows := by
  obtain ⟨hcols, hrows, _⟩ := filterPipeline_ok_inv t c f h
  have hr := hrows hq
  refine ⟨hcols, ?_, ?_⟩
  · rw [hr]; exact List.filter_sublist t.rows
  · intro r hrf
    rw [hr] at hrf
    exact List.mem_of_mem_filter hrf

theorem C9_witness : tableAB.rows.Sublist tableAB.rows :=
  (C9_filter_view_preserves_rows tableAB (critAll 30 "") tableAB rfl
    (by with_unfolding_all rfl)).2.1

/-- C9 counterexample: with a non-empty search string the combined mask
degenerates (see `filterPipeline`), and the "filtered" view consists of
all-missing rows that carry none of the stored field values — the rows of
the view are not rows of the table. -/
theorem C9_counterexample :
    filterPipeline tableAB (critAll 30 "x") =
      .ok { cols := tableAB.cols, rows := [rowNull, rowNull] } ∧
    rowNull ∉ tableAB.rows ∧ tableAB.rows ≠ [] := by
  refine ⟨by with_unfolding_all rfl, by with_unfolding_all decide, ?_⟩
  intro h
  exact List.cons_ne_nil _ _ (by rw [← h]; with_unfolding_all rfl)

/-- C8 (amended): with an empty search string, the script's per-criterion
masks behave algebraically as the claim states: filtering with the
combined mask is idempotent, and applying the masks sequentially in any
order yields the same subsequence as the script's single AND-combined
selection.  (With a non-empty search string the search criterion has no
row mask at all — see the C8 counterexample and `filterPipeline`.) -/
theorem C8_masks_idempotent_orderfree (t : Table) (c : Criteria)
    (ms : List (Row → Bool)) (hq : c.query = "")
    (hperm : ms.Perm (codeMasks t c)) :
    seqFilter ms t.rows = t.rows.filter (rowMask t c) ∧
    (t.rows.filter (rowMask t c)).filter (rowMask t c) =
      t.rows.filter (rowMask t c) ∧
    ∀ f, filterPipeline t c = .ok f → f.rows = seqFilter ms t.rows := by
  have hall : ∀ r, ms.all (fun p => p r) = rowMask t c r := by
    intro r
    rw [all_of_perm _ hperm]
    simp [codeMasks, rowMask, List.all_cons, Bool.and_assoc]
  have h1 : seqFilter ms t.rows = t.rows.filter (rowMask t c) := by
    rw [seqFilter_eq_filter_all]
    exact List.filter_congr (fun r _ => hall r)
  refine ⟨h1, ?_, ?_⟩
  · rw [List.filter_filter]
    exact List.filter_congr (fun r _ => Bool.and_self _)
  · intro f hf
    rw [h1]
    exact (filterPipeline_ok_inv t c f hf).2.1 hq

theorem C8_witness :
    seqFilter (codeMasks tableAB (critAll 30 "")) tableAB.rows =
      tableAB.rows.filter (rowMask tableAB (critAll 30 "")) ∧
    (tableAB.rows.filter (rowMask tableAB (critAll 30 ""))).filter
        (rowMask tableAB (critAll 30 "")) =
      tableAB.rows.filter (rowMask tableAB (critAll 30 "")) :=
  ⟨(C8_masks_idempotent_orderfree tableAB (critAll 30 "") _ rfl
      (List.Perm.refl _)).1,
   (C8_masks_idempotent_orderfree tableAB (critAll 30 "") _ rfl
      (List.Perm.refl _)).2.1⟩

/-- C8 counterexample: re-running the script's filter section on its own
output is not the identity: with the days slider at 0 the filtered
subsequence of `tableAB` is empty, and running the filter section again
on that empty view raises the `ValueError` of line 84 (`int(nan)`)
instead of returning the view unchanged. -/
theorem C8_counterexample :
    (filterPipeline tableAB (critAll 0 "")).bind
        (fun f => filterPipeline f (critAll 0 "")) =
      .error .valueError ∧
    filterPipeline tableAB (critAll 0 "") =
      .ok { cols := tableAB.cols, rows := [] } ∧
    (filterPipeline tableAB (critAll 0 "")).bind
        (fun f => filterPipeline f (critAll 0 "")) ≠
      filterPipeline tableAB (critAll 0 "") := by
  refine ⟨by with_unfolding_all rfl, by with_unfolding_all rfl, ?_⟩
  intro h
  rw [show (filterPipeline tableAB (critAll 0 "")).bind
        (fun f => filterPipeline f (critAll 0 "")) = .error .valueError
      from by with_unfolding_all rfl,
    show filterPipeline tableAB (critAll 0 "") =
        .ok { cols := tableAB.cols, rows := [] }
      from by with_unfolding_all rfl] at h
  exact Except.noConfusion h

theorem maskDate_default (t : Table) (c : Criteria) (r : Row)
    (hr : r ∈ t.rows) (hdr : c.dateRange = defaultDateRange t) :
    maskDate t c r = true := by
  rw [maskDate]
  split_ifs with hl
  · rw [hdr, defaultDateRange, if_pos hl]
    cases hmn : listMin (lastDueVals t) with
    | none => rfl
    | some mn =>
      cases hmx : listMax (lastDueVals t) with
      | none => rfl
      | some mx =>
        cases hld : r.lastDue with
        | none => rfl
        | some d =>
          simp only [decide_eq_true_eq]
          have hdm : d ∈ lastDueVals t := List.mem_filterMap.mpr ⟨r, hr, hld⟩
          exact ⟨listMin_le hdm hmn, le_listMax hdm hmx⟩
  · rfl

/-- C3 (amended): the default filter state (both select-all boxes
checked, status "All", the days slider at its default value
`int(max(Days Until Out))`, the full observed `Last Due` range, empty
search) produces the full table, provided the maximum observed
`Days Until Out` is an integer — `int()` truncates, so a fractional
maximum makes the default slider exclude the maximal rows (see the C3
counterexample). -/
theorem C3_default_state_full_view (t : Table) (c : Criteria) (m : ℚ)
    (hC : "Customer" ∈ t.cols) (hI : itemColName t ∈ t.cols)
    (hm : listMax (daysVals t) = some m) (hden : m.den = 1)
    (hc : defaultCriteria t = some c) :
    filterPipeline t c = .ok { cols := t.cols, rows := t.rows } := by
  have hdays : "Days Until Out" ∈ t.cols := by
    by_contra h
    rw [defaultCriteria, if_neg h] at hc
    exact Option.noConfusion hc
  rw [defaultCriteria, if_pos hdays, hm, Option.map_some'] at hc
  injection hc with hc
  have hsel : c.selectAllCust = true := by rw [← hc]
  have hsi : c.selectAllItems = true := by rw [← hc]
  have hst : c.statusChoice = "All" := by rw [← hc]
  have hds : c.daysSlider = truncQ m := by rw [← hc]
  have hdr : c.dateRange = defaultDateRange t := by rw [← hc]
  have hq : c.query = "" := by rw [← hc]
  have hmc : ∀ r ∈ t.rows, maskCustomer t c r = true := by
    intro r hr
    have hmem : normCust r ∈ custValues t :=
      List.mem_dedup.mpr (List.mem_map_of_mem normCust hr)
    simp [maskCustomer, hsel, hmem]
  have hfc : t.rows.filter (maskCustomer t c) = t.rows :=
    List.filter_eq_self.mpr hmc
  have hmi : ∀ r ∈ t.rows, maskItem t c r = true := by
    intro r hr
    have hmem : normItem r ∈ itemValues t c := by
      rw [itemValues, hfc]
      exact List.mem_dedup.mpr (List.mem_map_of_mem normItem hr)
    simp [maskItem, hsi, hmem]
  have hms : ∀ r : Row, maskStatus c r = true := by
    intro r; simp [maskStatus, hst]
  have hmd : ∀ r ∈ t.rows, maskDays c r = true := by
    intro r hr
    rw [maskDays]
    cases hd : r.daysUntilOut with
    | none => rfl
    | some d =>
      simp only [decide_eq_true_eq]
      have hdm : d ∈ daysVals t := List.mem_filterMap.mpr ⟨r, hr, hd⟩
      have hle : d ≤ m := le_listMax hdm hm
      rw [hds, truncQ_den_one m hden]
      exact hle
  have hmdate : ∀ r ∈ t.rows, maskDate t c r = true := fun r hr =>
    maskDate_default t c r hr hdr
  have hall : ∀ r ∈ t.rows, rowMask t c r = true := by
    intro r hr
    simp [rowMask, hmc r hr, hmi r hr, hms r, hmd r hr, hmdate r hr]
  have h3 : ¬(c.statusChoice ≠ "All" ∧ "Status" ∉ t.cols) :=
    fun hcon => hcon.1 hst
  have h5 : ¬ listMax (daysVals t) = none := by
    rw [hm]; exact fun h => Option.noConfusion h
  rw [filterPipeline, if_neg (not_not_intro hC), if_neg (not_not_intro hI),
    if_neg h3, if_neg (not_not_intro hdays), if_neg h5, if_pos hq,
    List.filter_eq_self.mpr hall]

theorem C3_witness :
    filterPipeline tableInt (critAll 3 "") =
      .ok { cols := tableInt.cols, rows := tableInt.rows } :=
  C3_default_state_full_view tableInt (critAll 3 "") 3
    (by with_unfolding_all decide) (by with_unfolding_all decide)
    (by with_unfolding_all rfl) (by with_unfolding_all decide)
    (by with_unfolding_all rfl)

/-- C3 counterexample: on a table whose maximum `Days Until Out` is 1/2,
the default slider value is `int(0.5) = 0` and the default filtered view
is empty rather than the full one-row table. -/
theorem C3_counterexample :
    defaultCriteria (addSuggestedDate 0 5 tableHalf) = some (critAll 0 "") ∧
    (runScript 0 5 tableHalf none (critAll 0 "")).map
        (fun o => o.filtered.rows) = .ok [] ∧
    tableHalf.rows.length = 1 :=
  ⟨by with_unfolding_all rfl, by with_unfolding_all rfl, rfl⟩

/-- C5 (amended): the CSV export contains exactly the filtered rows and
columns, but in the frame's own (underlying) column order, with the
derived `Suggested Reorder Date` column in its appended last position;
only the displayed table repositions that column immediately after
`Days Until Out` (lines 147-150).  The export (line 193) uses `filtered`,
not the reordered `filtered[cols]`. -/
theorem C5_csv_underlying_order (today buffer : ℤ) (t0 : Table)
    (upload : Option Table) (c : Criteria) (l1 l2 : List String)
    (out : ScriptOut)
    (hcols : t0.cols = l1 ++ "Days Until Out" :: l2)
    (hd1 : "Days Until Out" ∉ l1)
    (hsug : "Suggested Reorder Date" ∉ t0.cols)
    (hrun : runScript today buffer t0 upload c = .ok out) :
    out.csv =
      (l1 ++ "Days Until Out" :: (l2 ++ ["Suggested Reorder Date"])) ::
        out.filtered.rows.map
          (csvRow (l1 ++ "Days Until Out" :: (l2 ++ ["Suggested Reorder Date"]))) ∧
    out.displayCols =
      (if out.filtered.rows.isEmpty then none
       else some (l1 ++ "Days Until Out" :: "Suggested Reorder Date" :: l2)) := by
  obtain ⟨f, hf, hfe, hcsv, hdisp, _⟩ :=
    runScript_ok_inv today buffer t0 upload c out hrun
  have hdmem : "Days Until Out" ∈ t0.cols := by rw [hcols]; simp
  have hfcols : f.cols =
      l1 ++ "Days Until Out" :: (l2 ++ ["Suggested Reorder Date"]) := by
    have h1 := (filterPipeline_ok_inv _ c f hf).1
    rw [h1, addSuggestedDate_cols today buffer t0 hdmem hsug, hcols]
    simp
  have hsug1 : "Suggested Reorder Date" ∉ l1 := fun h =>
    hsug (by rw [hcols]; exact List.mem_append.mpr (Or.inl h))
  have hsug2 : "Suggested Reorder Date" ∉ l2 := fun h =>
    hsug (by
      rw [hcols]
      exact List.mem_append.mpr (Or.inr (List.mem_cons_of_mem _ h)))
  constructor
  · rw [hcsv, hfe]
    simp only [csvTable, hfcols]
  · rw [hdisp, hfe, hfcols, displayReorder_eq l1 l2 hd1 hsug1 hsug2]

theorem C5_witness :
    outAB.csv =
      (["Customer", "Item", "Status"] ++ "Days Until Out" ::
          (["Suggested Order Qty"] ++ ["Suggested Reorder Date"])) ::
        outAB.filtered.rows.map
          (csvRow (["Customer", "Item", "Status"] ++ "Days Until Out" ::
            (["Suggested Order Qty"] ++ ["Suggested Reorder Date"]))) ∧
    outAB.displayCols =
      (if outAB.filtered.rows.isEmpty then none
       else some (["Customer", "Item", "Status"] ++ "Days Until Out" ::
         "Suggested Reorder Date" :: ["Suggested Order Qty"])) :=
  C5_csv_underlying_order 0 5 tableAB none (critAll 30 "")
    ["Customer", "Item", "Status"] ["Suggested Order Qty"] outAB
    rfl (by with_unfolding_all decide) (by with_unfolding_all decide)
    (by with_unfolding_all rfl)

/-- C5 counterexample: on the worked example the CSV header (the export's
column order) has `Suggested Reorder Date` in last position, not
immediately after `Days Until Out`, although both columns are present;
the displayed table does reposition it. -/
theorem C5_counterexample :
    (runScript 0 5 tableAB none (critAll 30 "")).map
        (fun o => (o.csv.head?, o.displayCols)) =
      .ok (some colsABd,
        some ["Customer", "Item", "Status", "Days Until Out",
          "Suggested Reorder Date", "Suggested Order Qty"]) ∧
    "Days Until Out" ∈ colsABd ∧ "Suggested Reorder Date" ∈ colsABd ∧
    colsABd.indexOf "Suggested Reorder Date" ≠
      colsABd.indexOf "Days Until Out" + 1 :=
  ⟨by with_unfolding_all rfl, by with_unfolding_all decide,
   by with_unfolding_all decide, by with_unfolding_all decide⟩

/-- C6 (code evaluation at the failing input): on the spec's worked
example with search string "B", the spec's search rule (`specSearchHit`)
selects exactly row B, but the script's run returns a "filtered" view of
two all-missing rows (`mask_search` is an entire boolean DataFrame; its
AND-combination with the row masks aligns row labels against column
labels and collapses to all-False, and `df[all-False]` is a `where` that
blanks every cell) — no row-inclusion semantics at all. -/
theorem C6_search_not_row_mask :
    (runScript 0 5 tableAB none (critAll 30 "B")).map
        (fun o => (o.filtered.rows, o.kTotal)) =
      .ok ([rowNull, rowNull], 2) ∧
    (addSuggestedDate 0 5 tableAB).rows.filter
        (specSearchHit (addSuggestedDate 0 5 tableAB).cols "B") = [rowBd] :=
  ⟨by with_unfolding_all rfl, by with_unfolding_all rfl⟩
